import Mathlib

/-!
Shallow embedding of the actuator-provider firmware
(src/components/actuator-provider/src/main.c) of the service-to-signal
repository, and proofs about its signal classification, actuation,
locator validation, startup and Wi-Fi retry logic.

Strings received from the transport are modelled as `List Char` (the
byte data together with its declared length); machine side effects
(driving the GPIO output, publishing a message) are modelled as an
explicit trace of `Effect`s emitted by one receive-callback invocation.
-/

/-- Model of the C expression `strncmp(data, lit, data.length) == 0`, where
`lit` is a NUL-terminated string literal given here without its terminator.
`strncmp` compares at most `n = data.length` characters, stops with
"equal" as soon as both sides carry the NUL terminator, and stops with
"different" at the first differing character; positions of `lit` past its
end read as NUL (`Char.ofNat 0`). -/
def strncmpZero : List Char → List Char → Bool
  | [], _ => true
  | d :: _, [] => d == Char.ofNat 0
  | d :: ds, l :: ls =>
    if d == l then (if d == Char.ofNat 0 then true else strncmpZero ds ls)
    else false

/-- The `signal_type_t` enum of main.c. -/
inductive signal_type_t where
  | SIGNAL_TYPE_CURRENT_VALUE
  | SIGNAL_TYPE_TARGET_VALUE
  | SIGNAL_TYPE_UNKNOWN
  deriving DecidableEq, Repr

/-- Model of `attachment_handler` (main.c lines 106-135): the attachment of the
sample, when present, is converted to a string of declared length
`len` and classified with `strncmp(data, "currentValue", len)` and
`strncmp(data, "targetValue", len)`; an absent attachment yields
`SIGNAL_TYPE_UNKNOWN`. The argument is the attachment bytes of the
sample (`none` when `z_sample_attachment` returns NULL). -/
def attachment_handler (attachment : Option (List Char)) : signal_type_t :=
  match attachment with
  | some data =>
    if strncmpZero data "currentValue".data then .SIGNAL_TYPE_CURRENT_VALUE
    else if strncmpZero data "targetValue".data then .SIGNAL_TYPE_TARGET_VALUE
    else .SIGNAL_TYPE_UNKNOWN
  | none => .SIGNAL_TYPE_UNKNOWN

/-- One observable side effect of the receive callback: driving the GPIO
level (`gpio_set_level(LED_GPIO, level)`) or publishing a message with a
payload and an attachment tag (`z_publisher_put`). -/
inductive Effect where
  | setLevel (level : Nat)
  | publish (payload : List Char) (attachment : List Char)
  deriving DecidableEq, Repr

/-- Model of `pub_status` (main.c lines 78-104): copies `value` into a 32-byte
buffer with `snprintf` (hence truncation to 31 characters), and publishes
that buffer with the attachment `"currentValue"`. -/
def pub_status (value : List Char) : Effect :=
  .publish (value.take 31) "currentValue".data

/-- An inbound zenoh sample as seen by `data_handler`: key expression,
payload bytes, encoding descriptor, optional attachment and optional
timestamp. -/
structure InboundMessage where
  keyexpr : String
  payload : List Char
  encoding : String
  attachment : Option (List Char)
  timestamp : Option Nat

/-- Model of `data_handler` (main.c lines 195-245), as the trace of effects of one
callback invocation. The payload is classified by the attachment; on
`SIGNAL_TYPE_TARGET_VALUE` the payload is compared against `"true"`
(`value_len == 4 && strncmp(value_data, "true", 4) == 0`) and `"false"`
(`value_len == 5 && strncmp(value_data, "false", 5) == 0`), driving the
GPIO and publishing the status; every other case only logs. -/
def data_handler (sample : InboundMessage) : List Effect :=
  let signal_type := attachment_handler sample.attachment
  if signal_type = .SIGNAL_TYPE_TARGET_VALUE then
    if sample.payload.length == 4 && strncmpZero sample.payload "true".data then
      [Effect.setLevel 1, pub_status "true".data]
    else if sample.payload.length == 5 && strncmpZero sample.payload "false".data then
      [Effect.setLevel 0, pub_status "false".data]
    else []
  else []

/-- Effect of one action on the actuator output level (the last level
commanded through `gpio_set_level`). -/
def applyEffect (level : Nat) : Effect → Nat
  | .setLevel l => l
  | .publish _ _ => level

/-- Actuator output level after running a trace of actions from `level`. -/
def runActions (level : Nat) (actions : List Effect) : Nat :=
  actions.foldl applyEffect level

/-- The published (payload, attachment) pairs of a trace, in order. -/
def publishes : List Effect → List (List Char × List Char)
  | [] => []
  | .setLevel _ :: rest => publishes rest
  | .publish p a :: rest => (p, a) :: publishes rest

/-- The payload that `pub_status` publishes for a given output level:
level 1 was always published as `"true"`, level 0 as `"false"`. -/
def levelPayload (level : Nat) : List Char :=
  if level = 1 then "true".data else "false".data


/-! ### Locator validation (regular-expression matching) -/

/-- Abstract syntax of the POSIX extended regular expressions used by
`is_valid_locator`; character classes are predicates on characters. -/
inductive Regex where
  | emp
  | eps
  | cls (p : Char → Bool)
  | cat (r s : Regex)
  | alt (r s : Regex)
  | star (r : Regex)

/-- Whether a regex accepts the empty word. -/
def nullable : Regex → Bool
  | .emp => false
  | .eps => true
  | .cls _ => false
  | .cat r s => nullable r && nullable s
  | .alt r s => nullable r || nullable s
  | .star _ => true

/-- Language-preserving smart concatenation (keeps derivatives small). -/
def scat : Regex → Regex → Regex
  | .emp, _ => .emp
  | _, .emp => .emp
  | .eps, s => s
  | r, .eps => r
  | r, s => .cat r s

/-- Language-preserving smart alternation (keeps derivatives small). -/
def salt : Regex → Regex → Regex
  | .emp, s => s
  | r, .emp => r
  | r, s => .alt r s

/-- Brzozowski derivative of a regex by one character. -/
def rderiv (r : Regex) (c : Char) : Regex :=
  match r with
  | .emp => .emp
  | .eps => .emp
  | .cls p => if p c then .eps else .emp
  | .cat r s =>
    if nullable r then salt (scat (rderiv r c) s) (rderiv s c)
    else scat (rderiv r c) s
  | .alt r s => salt (rderiv r c) (rderiv s c)
  | .star r => scat (rderiv r c) (.star r)

/-- Whether a regex matches a whole word, by iterated derivatives. -/
def rmatch (r : Regex) : List Char → Bool
  | [] => nullable r
  | c :: cs => rmatch (rderiv r c) cs

/-- The class `[0-9]`. -/
def digitCls : Regex :=
  .cls (fun c => decide (48 ≤ c.toNat) && decide (c.toNat ≤ 57))

/-- The class `[a-zA-Z0-9_-]` of the interface-name part. -/
def ifaceCls : Regex :=
  .cls (fun c =>
    (decide (97 ≤ c.toNat) && decide (c.toNat ≤ 122)) ||
    (decide (65 ≤ c.toNat) && decide (c.toNat ≤ 90)) ||
    (decide (48 ≤ c.toNat) && decide (c.toNat ≤ 57)) ||
    c == '_' || c == '-')

/-- The regex matching one literal string. -/
def rstr (s : String) : Regex :=
  s.data.foldr (fun c r => .cat (.cls (fun x => x == c)) r) .eps

/-- Zero or one occurrence, `r?`. -/
def ropt (r : Regex) : Regex := .alt .eps r

/-- One or more occurrences, `r+`. -/
def rplus (r : Regex) : Regex := .cat r (.star r)

/-- One to three digits, `[0-9]{1,3}`. -/
def octet : Regex := .cat digitCls (.cat (ropt digitCls) (ropt digitCls))

/-- Body of the pattern compiled by `is_valid_locator` (main.c lines 55-56):
`tcp/([0-9]{1,3}\.){3}[0-9]{1,3}:[0-9]+#iface=[a-zA-Z0-9_-]+`,
between the anchors `^` and `$`. -/
def locatorBody : Regex :=
  .cat (rstr "tcp/")
    (.cat (.cat octet (.cls (fun c => c == '.')))
      (.cat (.cat octet (.cls (fun c => c == '.')))
        (.cat (.cat octet (.cls (fun c => c == '.')))
          (.cat octet
            (.cat (.cls (fun c => c == ':'))
              (.cat (rplus digitCls)
                (.cat (rstr "#iface=") (rplus ifaceCls))))))))

/-- Model of `is_valid_locator` (main.c lines 54-76): compiles the anchored extended
regex `^tcp/([0-9]{1,3}\.){3}[0-9]{1,3}:[0-9]+#iface=[a-zA-Z0-9_-]+$` (the
compilation of this fixed, well-formed pattern succeeds, so the -1 branch
is unreachable) and runs `regexec` on `url`. Because the pattern is
anchored on both sides, `regexec` reports a match exactly when the whole
input matches the body; `regexec`'s nonzero no-match code (REG_NOMATCH)
is modelled as 1, and callers only ever test the result against 0. -/
def is_valid_locator (url : String) : Int :=
  if rmatch locatorBody url.data then 0 else 1

/-- The pattern required by the specification,
`^tcp/(\d{1,3}\.){3}\d{1,3}:\d+#iface=[A-Za-z0-9_-]+$`, built from the
spec text: `\d` is the digit class and the interface name is one or more
of `[A-Za-z0-9_-]`. -/
def locatorSpecBody : Regex :=
  .cat (rstr "tcp/")
    (.cat (.cat octet (.cls (fun c => c == '.')))
      (.cat (.cat octet (.cls (fun c => c == '.')))
        (.cat (.cat octet (.cls (fun c => c == '.')))
          (.cat octet
            (.cat (.cls (fun c => c == ':'))
              (.cat (rplus digitCls)
                (.cat (rstr "#iface=") (rplus ifaceCls))))))))


/-! ### Startup sequence -/

/-- Transport-facing startup steps of `app_main`: inserting the
connect/listen endpoint into the session config, opening the session,
declaring the subscriber, declaring the publisher. -/
inductive StartupStep where
  | configConnect
  | configListen
  | sessionOpen
  | declareSubscriber
  | declarePublisher
  deriving DecidableEq, Repr

/-- Whether `app_main` reached its steady-state loop or called `exit(-1)`. -/
inductive StartupOutcome where
  | exited
  | running
  deriving DecidableEq, Repr

/-- Model of `app_main` (main.c lines 247-324) after Wi-Fi and GPIO setup, as the
trace of transport-facing steps it performs together with its outcome.
`openOk`, `subOk`, `pubOk` model the success of `z_open`,
`z_declare_subscriber` and `z_declare_publisher`. An invalid locator, or
a failure of any of the three, logs and calls `exit(-1)`; a trace records
each step at the moment it is attempted. -/
def app_main_startup (locator mode : String) (openOk subOk pubOk : Bool) :
    List StartupStep × StartupOutcome :=
  if is_valid_locator locator ≠ 0 then ([], .exited)
  else
    let cfg : List StartupStep :=
      if locator ≠ "" then
        (if mode = "client" then [.configConnect] else [.configListen])
      else []
    if openOk = false then (cfg ++ [.sessionOpen], .exited)
    else if subOk = false then
      (cfg ++ [.sessionOpen, .declareSubscriber], .exited)
    else if pubOk = false then
      (cfg ++ [.sessionOpen, .declareSubscriber, .declarePublisher], .exited)
    else (cfg ++ [.sessionOpen, .declareSubscriber, .declarePublisher], .running)

/-! ### Wi-Fi connectivity events -/

/-- The events `event_handler` (main.c lines 137-151) reacts to:
`WIFI_EVENT_STA_START`, `WIFI_EVENT_STA_DISCONNECTED` (link-down) and
`IP_EVENT_STA_GOT_IP` (link-up). -/
inductive WifiEvent where
  | staStart
  | staDisconnected
  | gotIp
  deriving DecidableEq, Repr

/-- The state `event_handler` mutates: the retry counter `s_retry_count`
(a C `int`, modelled as `Int`) and the `WIFI_CONNECTED_BIT` of the event
group. -/
structure WifiState where
  retryCount : Int
  connectedBit : Bool
  deriving DecidableEq, Repr

/-- Model of `event_handler` (main.c lines 137-151). The returned `Bool` records
whether this invocation called `esp_wifi_connect()` (an association
attempt). On `STA_START` it connects; on `STA_DISCONNECTED` it reconnects
and increments `s_retry_count` only while the counter is strictly below
`ESP_MAXIMUM_RETRY` (`max`); on `GOT_IP` it sets the connected bit and
resets the counter to 0. -/
def event_handler (max : Int) (ev : WifiEvent) (s : WifiState) :
    WifiState × Bool :=
  match ev with
  | .staStart => (s, true)
  | .staDisconnected =>
    if s.retryCount < max then
      ({ s with retryCount := s.retryCount + 1 }, true)
    else (s, false)
  | .gotIp => ({ retryCount := 0, connectedBit := true }, false)

/-- Run `event_handler` over a list of events, collecting per-event
whether an association attempt (`esp_wifi_connect`) was made. -/
def runEvents (max : Int) : List WifiEvent → WifiState → WifiState × List Bool
  | [], s => (s, [])
  | e :: es, s =>
    let r := event_handler max e s
    let rest := runEvents max es r.1
    (rest.1, r.2 :: rest.2)

/-! ### Helper lemmas -/

/-- When the compared lengths agree and the literal is NUL-free,
`strncmp(data, lit, data.length) == 0` is exact equality. -/
lemma strncmpZero_eq_iff (d l : List Char) (hlen : d.length = l.length)
    (hl : ∀ c ∈ l, c ≠ Char.ofNat 0) : strncmpZero d l = true ↔ d = l := by
  induction d generalizing l with
  | nil =>
    cases l with
    | nil => simp [strncmpZero]
    | cons y ys => simp at hlen
  | cons x xs ih =>
    cases l with
    | nil => simp at hlen
    | cons y ys =>
      simp only [strncmpZero]
      by_cases hxy : x = y
      · subst hxy
        have hx0 : x ≠ Char.ofNat 0 := hl x (by simp)
        have := ih ys (by simpa using hlen) (fun c hc => hl c (by simp [hc]))
        simp [hx0, this]
      · simp [hxy]

/-- The `"true"` guard of `data_handler` holds exactly on the 4-byte
payload `"true"`. -/
lemma true_guard_iff (p : List Char) :
    (p.length == 4 && strncmpZero p "true".data) = true ↔ p = "true".data := by
  constructor
  · intro h
    rw [Bool.and_eq_true, beq_iff_eq] at h
    exact (strncmpZero_eq_iff p "true".data (by simpa using h.1) (by decide)).mp h.2
  · intro h
    subst h
    decide

/-- The `"false"` guard of `data_handler` holds exactly on the 5-byte
payload `"false"`. -/
lemma false_guard_iff (p : List Char) :
    (p.length == 5 && strncmpZero p "false".data) = true ↔ p = "false".data := by
  constructor
  · intro h
    rw [Bool.and_eq_true, beq_iff_eq] at h
    exact (strncmpZero_eq_iff p "false".data (by simpa using h.1) (by decide)).mp h.2
  · intro h
    subst h
    decide

/-- Running `runEvents` distributes over list append. -/
lemma runEvents_append (max : Int) (es1 es2 : List WifiEvent) (s : WifiState) :
    runEvents max (es1 ++ es2) s =
      ((runEvents max es2 (runEvents max es1 s).1).1,
       (runEvents max es1 s).2 ++ (runEvents max es2 (runEvents max es1 s).1).2) := by
  induction es1 generalizing s with
  | nil => simp [runEvents]
  | cons e es ih => simp [runEvents, ih]

/-- While the retry budget lasts, each link-down event increments the
counter and makes an association attempt. -/
lemma runEvents_downs_fill (max : Int) (n : Nat) (c : Int) (b : Bool)
    (h : c + n ≤ max) :
    runEvents max (List.replicate n .staDisconnected) ⟨c, b⟩ =
      (⟨c + n, b⟩, List.replicate n true) := by
  induction n generalizing c with
  | zero => simp [runEvents]
  | succ n ih =>
    have hc : c < max := by push_cast at h; omega
    rw [List.replicate_succ]
    simp only [runEvents, event_handler, if_pos hc]
    rw [ih (c + 1) (by push_cast at h ⊢; omega)]
    have harith : c + 1 + (n : Int) = c + ((n : Nat) + 1 : Nat) := by
      push_cast
      ring
    simp [harith, List.replicate_succ]

/-- Once the counter has reached the budget, link-down events neither
move the state nor make an association attempt. -/
lemma runEvents_downs_sat (max : Int) (k : Nat) (s : WifiState)
    (h : max ≤ s.retryCount) :
    runEvents max (List.replicate k .staDisconnected) s =
      (s, List.replicate k false) := by
  induction k with
  | zero => simp [runEvents]
  | succ k ih =>
    have hns : ¬ s.retryCount < max := by omega
    rw [List.replicate_succ]
    simp [runEvents, event_handler, hns, ih, List.replicate_succ]

/-! ### Claim theorems -/

/-- C1: the classifier does NOT return CurrentValue only on the exact tag
`"currentValue"`: because `strncmp` is bounded by the tag's own length,
the 4-byte tag `"curr"` (a strict prefix of the literal) and even the
empty present tag are classified `SIGNAL_TYPE_CURRENT_VALUE`, although
neither equals `"currentValue"`; likewise the 6-byte tag `"target"` is
classified `SIGNAL_TYPE_TARGET_VALUE`. The spec's own vectors (absent
tag, the two exact literals, and `"currentValueX"`) do behave as stated. -/
theorem attachment_handler_prefix_tag_misclassified :
    attachment_handler (some "curr".data) = .SIGNAL_TYPE_CURRENT_VALUE ∧
    "curr".data ≠ "currentValue".data ∧
    attachment_handler (some []) = .SIGNAL_TYPE_CURRENT_VALUE ∧
    attachment_handler (some "target".data) = .SIGNAL_TYPE_TARGET_VALUE ∧
    "target".data ≠ "targetValue".data ∧
    attachment_handler none = .SIGNAL_TYPE_UNKNOWN ∧
    attachment_handler (some "currentValue".data) = .SIGNAL_TYPE_CURRENT_VALUE ∧
    attachment_handler (some "targetValue".data) = .SIGNAL_TYPE_TARGET_VALUE ∧
    attachment_handler (some "currentValueX".data) = .SIGNAL_TYPE_UNKNOWN := by
  decide

/-- C2: on a message classified TargetValue whose payload is exactly
`"true"` (resp. `"false"`), the callback emits exactly the trace
[set GPIO level 1, publish payload `"true"` with tag `"currentValue"`]
(resp. level 0 and `"false"`): the actuation is the first effect, the
confirmation publish the second and only publish, in this order. -/
theorem data_handler_target_actuates_then_confirms (m : InboundMessage)
    (h : attachment_handler m.attachment = .SIGNAL_TYPE_TARGET_VALUE) :
    (m.payload = "true".data →
      data_handler m =
        [Effect.setLevel 1, Effect.publish "true".data "currentValue".data]) ∧
    (m.payload = "false".data →
      data_handler m =
        [Effect.setLevel 0, Effect.publish "false".data "currentValue".data]) := by
  constructor
  · intro hp
    have hg := (true_guard_iff m.payload).mpr hp
    simp [data_handler, h, hg, pub_status]
  · intro hp
    have hg2 := (false_guard_iff m.payload).mpr hp
    have hg1 : (m.payload.length == 4 && strncmpZero m.payload "true".data) = false := by
      rw [hp]; decide
    simp [data_handler, h, hg1, hg2, pub_status]

/-- C2 witness: a concrete TargetValue/"true" message, with a key
expression, an encoding and no timestamp, produces exactly the
actuate-then-publish trace. -/
theorem data_handler_target_actuates_then_confirms_w :
    data_handler
        ⟨"Vehicle/Body/Horn/IsActive", "true".data, "zenoh/string;utf8",
          some "targetValue".data, none⟩ =
      [Effect.setLevel 1, Effect.publish "true".data "currentValue".data] :=
  (data_handler_target_actuates_then_confirms
    ⟨"Vehicle/Body/Horn/IsActive", "true".data, "zenoh/string;utf8",
      some "targetValue".data, none⟩ (by decide)).1 rfl

/-- C3: after a successful classification-and-actuation cycle (TargetValue
classification with payload `"true"` or `"false"`), the callback's publish
trace is exactly one confirmation whose payload is the payload
corresponding to the resulting output level and whose tag is
`"currentValue"` — so the output state equals the most recently published
value; and a callback whose classification is CurrentValue or Unknown
publishes nothing. -/
theorem data_handler_state_matches_last_publish :
    (∀ (m : InboundMessage) (s0 : Nat),
      attachment_handler m.attachment = .SIGNAL_TYPE_TARGET_VALUE →
      m.payload = "true".data ∨ m.payload = "false".data →
      publishes (data_handler m) =
        [(levelPayload (runActions s0 (data_handler m)), "currentValue".data)]) ∧
    (∀ m : InboundMessage,
      attachment_handler m.attachment = .SIGNAL_TYPE_CURRENT_VALUE ∨
      attachment_handler m.attachment = .SIGNAL_TYPE_UNKNOWN →
      publishes (data_handler m) = []) := by
  constructor
  · intro m s0 h hp
    rcases hp with hp | hp
    · have hg := (true_guard_iff m.payload).mpr hp
      simp [data_handler, h, hg, pub_status, publishes, runActions, applyEffect,
        levelPayload]
    · have hg2 := (false_guard_iff m.payload).mpr hp
      have hg1 : (m.payload.length == 4 && strncmpZero m.payload "true".data) = false := by
        rw [hp]; decide
      simp [data_handler, h, hg1, hg2, pub_status, publishes, runActions,
        applyEffect, levelPayload]
  · intro m h
    rcases h with h | h <;> simp [data_handler, h, publishes]

/-- C3 witness: a concrete TargetValue/"false" cycle publishes exactly the
payload of its resulting level, and a concrete CurrentValue message
publishes nothing. -/
theorem data_handler_state_matches_last_publish_w :
    publishes (data_handler ⟨"k", "false".data, "e", some "targetValue".data, none⟩) =
      [(levelPayload (runActions 1
          (data_handler ⟨"k", "false".data, "e", some "targetValue".data, none⟩)),
        "currentValue".data)] ∧
    publishes (data_handler ⟨"k", "true".data, "e", some "currentValue".data, none⟩) = [] :=
  ⟨data_handler_state_matches_last_publish.1
      ⟨"k", "false".data, "e", some "targetValue".data, none⟩ 1 (by decide)
      (Or.inr rfl),
   data_handler_state_matches_last_publish.2
      ⟨"k", "true".data, "e", some "currentValue".data, none⟩ (Or.inl (by decide))⟩

/-- C4: the locator validator does NOT accept the empty string: the
anchored pattern requires at least the `tcp/` segment, so
`is_valid_locator("")` reports no match, and `app_main` then logs and
exits before its empty-locator "use defaults" branch, before opening a
session and before declaring a subscriber or publisher (here with the
shipped `MODE` `"client"` and all transport calls succeeding). -/
theorem is_valid_locator_rejects_empty :
    is_valid_locator "" ≠ 0 ∧
    app_main_startup "" "client" true true true = ([], .exited) := by
  decide

/-- C5: for every non-empty locator string, `is_valid_locator` succeeds
exactly when the whole string matches the spec's pattern
`^tcp/(\d{1,3}\.){3}\d{1,3}:\d+#iface=[A-Za-z0-9_-]+$` (the code's class
spellings `[0-9]` and `[a-zA-Z0-9_-]` denote the same character sets);
octet values above 255 are accepted, the spec's example
`"tcp/192.168.1.10:7447#iface=eth0"` is valid, and strings missing the
interface marker, the protocol, an octet, or the port are rejected. -/
theorem is_valid_locator_iff_spec_pattern :
    (∀ s : String, s ≠ "" →
      (is_valid_locator s = 0 ↔ rmatch locatorSpecBody s.data = true)) ∧
    is_valid_locator "tcp/192.168.1.10:7447#iface=eth0" = 0 ∧
    is_valid_locator "tcp/192.168.1.10:7447" ≠ 0 ∧
    is_valid_locator "tcp/999.999.999.999:1#iface=x" = 0 ∧
    is_valid_locator "192.168.1.10:7447#iface=eth0" ≠ 0 ∧
    is_valid_locator "tcp/192.168.1:7447#iface=eth0" ≠ 0 ∧
    is_valid_locator "tcp/192.168.1.10#iface=eth0" ≠ 0 ∧
    is_valid_locator "tcp/192.168.1.10:7447#iface=" ≠ 0 := by
  refine ⟨?_, by decide, by decide, by decide, by decide, by decide, by decide,
    by decide⟩
  intro s _
  show (if rmatch locatorBody s.data then (0 : Int) else 1) = 0 ↔ _
  cases hr : rmatch locatorBody s.data with
  | false =>
    have hs : rmatch locatorSpecBody s.data = false := hr
    simp [hr, hs]
  | true =>
    have hs : rmatch locatorSpecBody s.data = true := hr
    simp [hr, hs]

/-- C5 witness: the iff instantiated at the concrete non-empty locator
`"tcp/10.0.0.1:7447#iface=wlan0"`. -/
theorem is_valid_locator_iff_spec_pattern_w :
    is_valid_locator "tcp/10.0.0.1:7447#iface=wlan0" = 0 ↔
      rmatch locatorSpecBody "tcp/10.0.0.1:7447#iface=wlan0".data = true :=
  is_valid_locator_iff_spec_pattern.1 "tcp/10.0.0.1:7447#iface=wlan0" (by decide)

/-- C7: a TargetValue message whose payload is neither exactly `"true"`
nor exactly `"false"` produces no effect at all (no GPIO write, so the
output state is unchanged, and no publish), and a CurrentValue message
produces no effect regardless of its payload and of the prior state. -/
theorem data_handler_unrecognized_no_effect :
    (∀ (m : InboundMessage) (s0 : Nat),
      attachment_handler m.attachment = .SIGNAL_TYPE_TARGET_VALUE →
      m.payload ≠ "true".data → m.payload ≠ "false".data →
      data_handler m = [] ∧ runActions s0 (data_handler m) = s0 ∧
        publishes (data_handler m) = []) ∧
    (∀ (m : InboundMessage) (s0 : Nat),
      attachment_handler m.attachment = .SIGNAL_TYPE_CURRENT_VALUE →
      data_handler m = [] ∧ runActions s0 (data_handler m) = s0 ∧
        publishes (data_handler m) = []) := by
  constructor
  · intro m s0 h hpt hpf
    have hg1 : (m.payload.length == 4 && strncmpZero m.payload "true".data) = false := by
      cases hc : (m.payload.length == 4 && strncmpZero m.payload "true".data) with
      | false => rfl
      | true => exact absurd ((true_guard_iff m.payload).mp hc) hpt
    have hg2 : (m.payload.length == 5 && strncmpZero m.payload "false".data) = false := by
      cases hc : (m.payload.length == 5 && strncmpZero m.payload "false".data) with
      | false => rfl
      | true => exact absurd ((false_guard_iff m.payload).mp hc) hpf
    simp [data_handler, h, hg1, hg2, runActions, publishes]
  · intro m s0 h
    simp [data_handler, h, runActions, publishes]

/-- C7 witness: a concrete TargetValue message with the unrecognized
payload `"maybe"`, and a concrete CurrentValue message, each leave the
state 0 unchanged and publish nothing. -/
theorem data_handler_unrecognized_no_effect_w :
    (data_handler ⟨"k", "maybe".data, "e", some "targetValue".data, none⟩ = [] ∧
      runActions 0 (data_handler ⟨"k", "maybe".data, "e", some "targetValue".data, none⟩) = 0 ∧
      publishes (data_handler ⟨"k", "maybe".data, "e", some "targetValue".data, none⟩) = []) ∧
    (data_handler ⟨"k", "false".data, "e", some "currentValue".data, none⟩ = [] ∧
      runActions 0 (data_handler ⟨"k", "false".data, "e", some "currentValue".data, none⟩) = 0 ∧
      publishes (data_handler ⟨"k", "false".data, "e", some "currentValue".data, none⟩) = []) :=
  ⟨data_handler_unrecognized_no_effect.1
      ⟨"k", "maybe".data, "e", some "targetValue".data, none⟩ 0 (by decide)
      (by decide) (by decide),
   data_handler_unrecognized_no_effect.2
      ⟨"k", "false".data, "e", some "currentValue".data, none⟩ 0 (by decide)⟩

/-- C8: if locator validation fails, `app_main` exits with an empty
transport trace: it never opens a session and never declares the
subscriber or the publisher, whatever the mode and however the transport
calls would have fared. -/
theorem app_main_invalid_locator_no_session (locator mode : String)
    (openOk subOk pubOk : Bool) (h : is_valid_locator locator ≠ 0) :
    app_main_startup locator mode openOk subOk pubOk = ([], .exited) ∧
    StartupStep.sessionOpen ∉ (app_main_startup locator mode openOk subOk pubOk).1 ∧
    StartupStep.declareSubscriber ∉ (app_main_startup locator mode openOk subOk pubOk).1 ∧
    StartupStep.declarePublisher ∉ (app_main_startup locator mode openOk subOk pubOk).1 := by
  simp [app_main_startup, h]

/-- C8 witness: the concrete invalid locator `"tcp/192.168.1.10:7447"`
(missing interface) in client mode with all transport calls succeeding. -/
theorem app_main_invalid_locator_no_session_w :
    app_main_startup "tcp/192.168.1.10:7447" "client" true true true =
      ([], .exited) ∧
    StartupStep.sessionOpen ∉
      (app_main_startup "tcp/192.168.1.10:7447" "client" true true true).1 ∧
    StartupStep.declareSubscriber ∉
      (app_main_startup "tcp/192.168.1.10:7447" "client" true true true).1 ∧
    StartupStep.declarePublisher ∉
      (app_main_startup "tcp/192.168.1.10:7447" "client" true true true).1 :=
  app_main_invalid_locator_no_session "tcp/192.168.1.10:7447" "client"
    true true true (by decide)

/-- C6: starting connected (counter 0), each of the first `max`
consecutive link-down events triggers a reassociation attempt
(`esp_wifi_connect`), and every later link-down with no intervening
link-up triggers none, leaving the counter at `max`; a single link-up
(`IP_EVENT_STA_GOT_IP`) at any point resets the counter to zero. -/
theorem event_handler_retry_budget (max k : Nat) :
    runEvents (max : Int)
        (List.replicate max .staDisconnected ++ List.replicate k .staDisconnected)
        ⟨0, true⟩ =
      (⟨(max : Int), true⟩, List.replicate max true ++ List.replicate k false) ∧
    ∀ s : WifiState, ((event_handler (max : Int) .gotIp s).1).retryCount = 0 := by
  constructor
  · rw [runEvents_append]
    rw [runEvents_downs_fill (max : Int) max 0 true (by omega)]
    rw [runEvents_downs_sat (max : Int) k ⟨0 + (max : Int), true⟩ (by simp)]
    simp
  · intro s
    simp [event_handler]

/-- C9: every step of `event_handler` preserves the bounds
`0 ≤ s_retry_count ≤ ESP_MAXIMUM_RETRY`: the increment on a disconnection
is guarded by `s_retry_count < ESP_MAXIMUM_RETRY`, the link-up step
resets the counter to zero, and no other step touches it. -/
theorem event_handler_retry_count_bounded (max : Int) (ev : WifiEvent)
    (s : WifiState) (h0 : 0 ≤ s.retryCount) (h1 : s.retryCount ≤ max) :
    0 ≤ ((event_handler max ev s).1).retryCount ∧
      ((event_handler max ev s).1).retryCount ≤ max := by
  cases ev with
  | staStart => exact ⟨h0, h1⟩
  | staDisconnected =>
    simp only [event_handler]
    split
    · rename_i hlt
      constructor
      · simp only []
        omega
      · simp only []
        omega
    · exact ⟨h0, h1⟩
  | gotIp =>
    simp only [event_handler]
    constructor
    · omega
    · omega

/-- C9 witness: one disconnection step at counter 2 with budget 5 stays
within the bounds. -/
theorem event_handler_retry_count_bounded_w :
    0 ≤ ((event_handler 5 .staDisconnected ⟨2, false⟩).1).retryCount ∧
      ((event_handler 5 .staDisconnected ⟨2, false⟩).1).retryCount ≤ 5 :=
  event_handler_retry_count_bounded 5 .staDisconnected ⟨2, false⟩
    (by decide) (by decide)

/-- C10: the effect trace of the receive callback (hence both the
resulting output state and every publish) is a function of the message's
attachment tag and payload alone: two inbound messages agreeing on those
two fields produce identical traces whatever their key expressions,
encodings or timestamps. -/
theorem data_handler_depends_only_on_tag_payload (m1 m2 : InboundMessage)
    (ha : m1.attachment = m2.attachment) (hp : m1.payload = m2.payload) :
    data_handler m1 = data_handler m2 := by
  simp only [data_handler, ha, hp]

/-- C10 witness: two messages with the same tag and payload but different
key expressions, encodings and timestamps produce the same trace. -/
theorem data_handler_depends_only_on_tag_payload_w :
    data_handler
        ⟨"Vehicle/Body/Horn/IsActive", "true".data, "zenoh/string;utf8",
          some "targetValue".data, none⟩ =
      data_handler
        ⟨"other/key", "true".data, "application/json",
          some "targetValue".data, some 42⟩ :=
  data_handler_depends_only_on_tag_payload
    ⟨"Vehicle/Body/Horn/IsActive", "true".data, "zenoh/string;utf8",
      some "targetValue".data, none⟩
    ⟨"other/key", "true".data, "application/json",
      some "targetValue".data, some 42⟩ rfl rfl
